import Mathlib

/-!
Verification development for the Signal-Handler repository
(src/signal_handler.cpp and src/signal_handler.hpp).

Modelling conventions:

- POSIX signal numbers use the Linux values (the platform the code targets).
- The static member SignalHandler::signal_map is embedded as an association
  list in the order of the source initializer (signal_handler.cpp lines
  68-78).  The SIGUSR1 entry is commented out in the source (line 69) and
  is therefore absent from the list.
- The fields of the class SignalHandler together with the parts of the OS
  world that its methods read or write (the STDIN terminal settings, the
  worker thread handle, the worker thread scheduling parameters, the
  thread signal mask) are collected in one record SHState.  OS calls whose
  return value the code inspects are given explicit Boolean success
  oracles; OS calls whose return value the code ignores (tcsetattr,
  pthread_sigmask inside start) are modelled as succeeding.  Calls whose
  effect escapes the method (the std::terminate of a move assignment into
  a joinable std::thread, the delivery of the unblocked SIGUSR1 sent by
  stop) are modelled through explicit outcome types.
- One pass of the body of the while loop in SignalHandler::run (lines
  433-474) is embedded as a pure function from the re-read stop_requested
  flag, the presence of a callback, and the signal returned by
  sigwaitinfo, to the action the body takes.  The body mutates no member
  of the class in any of its branches, so the action characterizes the
  iteration completely.
-/

namespace SigHandler

/-- Linux signal number of SIGHUP (hangup). -/
def SIGHUP : Int := 1

/-- Linux signal number of SIGINT (keyboard interrupt). -/
def SIGINT : Int := 2

/-- Linux signal number of SIGQUIT (keyboard quit). -/
def SIGQUIT : Int := 3

/-- Linux signal number of SIGILL (illegal instruction). -/
def SIGILL : Int := 4

/-- Linux signal number of SIGABRT (abort). -/
def SIGABRT : Int := 6

/-- Linux signal number of SIGBUS (bus error). -/
def SIGBUS : Int := 7

/-- Linux signal number of SIGFPE (floating-point exception). -/
def SIGFPE : Int := 8

/-- Linux signal number of SIGUSR1 (user-defined signal 1), the signal
SignalHandler::stop sends with pthread_kill to wake the worker. -/
def SIGUSR1 : Int := 10

/-- Linux signal number of SIGSEGV (invalid memory reference). -/
def SIGSEGV : Int := 11

/-- Linux signal number of SIGTERM (termination request). -/
def SIGTERM : Int := 15

/-- Embedding of the static member SignalHandler::signal_map
(signal_handler.cpp lines 68-78): each entry maps a signal number to the
pair of its display name and its critical ("immediate"/fatal) flag, in the
order of the source initializer.  The SIGUSR1 entry on line 69 of the
source is commented out, so it does not appear here. -/
def signal_map : List (Int × String × Bool) :=
  [ (SIGINT, ("SIGINT", false)),
    (SIGTERM, ("SIGTERM", false)),
    (SIGQUIT, ("SIGQUIT", false)),
    (SIGHUP, ("SIGHUP", false)),
    (SIGSEGV, ("SIGSEGV", true)),
    (SIGBUS, ("SIGBUS", true)),
    (SIGFPE, ("SIGFPE", true)),
    (SIGILL, ("SIGILL", true)),
    (SIGABRT, ("SIGABRT", true)) ]

/-- Embedding of SignalHandler::signalToString (signal_handler.cpp lines
285-296): look the signal number up in signal_map and return the stored
name, or the string UNKNOWN when the number is not a key of the map. -/
def signalToString (signum : Int) : String :=
  match signal_map.lookup signum with
  | some p => p.1
  | none => "UNKNOWN"

/-- Action taken by one pass of the while-loop body in SignalHandler::run
after sigwaitinfo has returned a signal. -/
inductive LoopAction where
| breakLoop
| continueLoop
| invokeCallback (sig : Int) (critical : Bool)
| exitProcess
deriving DecidableEq, Repr

/-- Embedding of one pass of the loop body of SignalHandler::run
(signal_handler.cpp lines 435-473), given the value of stop_requested
re-read after sigwaitinfo returned, whether the std::function callback is
non-empty, and the signal sigwaitinfo returned: first the stop_requested
check (line 439), then the SIGUSR1 wake filter (line 445), then the
signal_map lookup with unmapped signals skipped (lines 449-451), then
either the callback invocation with the critical flag (line 464) or, with
no callback, std::exit(EXIT_FAILURE) exactly when the flag is set (lines
469-472). -/
def runIteration (stopRequested : Bool) (hasCallback : Bool) (sig : Int) :
    LoopAction :=
  if stopRequested then LoopAction.breakLoop
  else if sig == SIGUSR1 then LoopAction.continueLoop
  else
    match signal_map.lookup sig with
    | none => LoopAction.continueLoop
    | some p =>
      if hasCallback then LoopAction.invokeCallback sig p.2
      else if p.2 then LoopAction.exitProcess
      else LoopAction.continueLoop

/-- List of (signal, critical) arguments with which the user callback is
invoked during one pass of the loop body described by the given action. -/
def callbackCalls : LoopAction → List (Int × Bool)
| LoopAction.invokeCallback s c => [(s, c)]
| _ => []

/-- Terminal settings for STDIN (struct termios).  The only field the code
touches is the ECHOCTL bit of c_lflag (cleared in start, restored in
stop), embedded as the Boolean echoctl; every other bit of the struct is
collected in the field rest, which the code never modifies. -/
structure Termios where
  echoctl : Bool
  rest : Nat
deriving DecidableEq, Repr

/-- State of one SignalHandler object together with the parts of the OS
world its methods touch.  Member fields of the class: running,
stop_requested, stopping (declared and initialized but never read
elsewhere in the source), termios_saved, original_termios, signal_set,
and the worker thread handle embedded as the Boolean worker_joinable.
World fields: terminal is the current STDIN termios; blocked is the
thread signal mask of the owning thread, which the worker thread
inherits when it is spawned and never changes afterwards (run calls no
pthread_sigmask); sched is the scheduling policy and priority last
applied to the worker thread with pthread_setschedparam; spawn_count
counts std::thread constructions and join_count counts
std::thread::join calls, so that once-only properties can be stated. -/
structure SHState where
  running : Bool
  stop_requested : Bool
  stopping : Bool
  termios_saved : Bool
  original_termios : Termios
  signal_set : List Int
  worker_joinable : Bool
  terminal : Termios
  blocked : List Int
  sched : Option (Int × Int)
  spawn_count : Nat
  join_count : Nat
deriving DecidableEq, Repr

/-- Embedding of the constructor SignalHandler::SignalHandler
(signal_handler.cpp lines 153-159): the four Boolean members are
initialized to false and nothing else is touched.  The argument term is
the current STDIN terminal settings of the surrounding world; the
argument junk stands for the indeterminate initial contents of the
uninitialized member original_termios; the argument mask0 is the signal
mask the owning thread starts from (empty for a normally started
process; nothing in the repository ever blocks SIGUSR1 or installs a
handler for it, so SIGUSR1 is never in it). -/
def mkSignalHandler (term : Termios) (junk : Termios) (mask0 : List Int) :
    SHState :=
  { running := false
    stop_requested := false
    stopping := false
    termios_saved := false
    original_termios := junk
    signal_set := []
    worker_joinable := false
    terminal := term
    blocked := mask0
    sched := none
    spawn_count := 0
    join_count := 0 }

/-- Outcome of a call to SignalHandler::start.  The C++ method returns
void, so a normal return carries no status value, only the resulting
state; terminated is the std::terminate raised when the move assignment
worker_thread = std::thread(...) at line 219 targets a std::thread that
is still joinable. -/
inductive StartOutcome where
| returned (s : SHState)
| terminated
deriving DecidableEq, Repr

/-- Embedding of SignalHandler::start (signal_handler.cpp lines 173-220),
in source order: store true into running (line 175); if tcgetattr
succeeds (oracle tcget_ok) set termios_saved, save the current terminal
settings, and apply a copy with the ECHOCTL bit cleared via tcsetattr
(lines 178-188; the code ignores the tcsetattr result, modelled as
succeeding); if sigemptyset fails (oracle sigemptyset_ok) return
immediately without building the set or spawning a thread (lines
191-197); otherwise build signal_set from the keys of signal_map (the
per-entry sigaddset failures only skip that entry, lines 199-208) and
block it for the calling thread with pthread_sigmask (lines 211-216; the
code ignores its failure, modelled as succeeding); finally move-assign
the new worker thread at line 219, which calls std::terminate if
worker_thread is still joinable, and otherwise spawns the worker, which
inherits the blocked mask.  No lifecycle state is checked anywhere in
the method and nothing is ever returned to the caller. -/
def start (tcget_ok sigemptyset_ok : Bool) (s : SHState) : StartOutcome :=
  let s := { s with running := true }
  let s :=
    if tcget_ok then
      { s with termios_saved := true
               original_termios := s.terminal
               terminal := { s.terminal with echoctl := false } }
    else s
  if !sigemptyset_ok then StartOutcome.returned s
  else
    let s := { s with signal_set := signal_map.map Prod.fst }
    let s := { s with blocked := s.blocked ++
      (signal_map.map Prod.fst).filter (fun x => !s.blocked.contains x) }
    if s.worker_joinable then StartOutcome.terminated
    else StartOutcome.returned
      { s with worker_joinable := true, spawn_count := s.spawn_count + 1 }

/-- Outcome of a call to SignalHandler::stop: a normal return with the
Boolean result of the method and the new state; processKilled when a
delivered signal with default terminate disposition ends the process
before the method can return; joinHangs when the join at line 334 can
never complete.  The killed and hanging outcomes carry the state of the
world at that moment. -/
inductive StopOutcome where
| returned (ret : Bool) (s : SHState)
| processKilled (sig : Int) (s : SHState)
| joinHangs (s : SHState)
deriving DecidableEq, Repr

/-- Embedding of SignalHandler::stop (signal_handler.cpp lines 317-344).
If running is false or stop_requested is already true the method returns
false immediately, touching nothing (lines 320-323).  Otherwise it
stores true into stop_requested (line 326) and calls
pthread_kill(worker_thread.native_handle(), SIGUSR1) (line 329).  When a
worker thread exists (worker_joinable), SIGUSR1 is delivered to it;
since the SIGUSR1 entry of signal_map is commented out (line 69), no
mask this program builds contains SIGUSR1, so unless the surrounding
environment blocked it the delivery hits an unblocked signal whose
default disposition terminates the process before the join at line 334
or the terminal restore at line 340 can run.  Were SIGUSR1 blocked in
the inherited mask, it would sit pending forever, because the local_set
that sigwaitinfo waits on (built from signal_map at lines 412-430) does
not contain SIGUSR1 either, so the worker never leaves the wait and the
join never completes.  When no worker thread was ever constructed the
handle names no live thread, pthread_kill delivers nothing (reporting
ESRCH, which the code ignores), the joinable check at line 332 skips the
join, the saved terminal settings are restored (lines 338-341), and the
method returns true. -/
def stop (s : SHState) : StopOutcome :=
  if !s.running || s.stop_requested then StopOutcome.returned false s
  else
    let s := { s with stop_requested := true }
    if s.worker_joinable then
      if SIGUSR1 ∈ s.blocked then StopOutcome.joinHangs s
      else StopOutcome.processKilled SIGUSR1 s
    else
      let s :=
        if s.termios_saved then { s with terminal := s.original_termios }
        else s
      StopOutcome.returned true s

/-- Embedding of SignalHandler::setPriority (signal_handler.cpp lines
367-383).  If running is false or the worker thread is not joinable the
method returns false without touching anything.  Otherwise it calls
pthread_setschedparam on the worker handle (success oracle ssp_ok) and
returns whether that call succeeded, recording the applied policy and
priority in the world on success. -/
def setPriority (ssp_ok : Bool) (schedPolicy priority : Int) (s : SHState) :
    Bool × SHState :=
  if !s.running || !s.worker_joinable then (false, s)
  else if ssp_ok then (true, { s with sched := some (schedPolicy, priority) })
  else (false, s)

/-- Success oracles for the three signal-mask API calls made by the free
function block_signals: sigemptyset, sigaddset (per signal number), and
pthread_sigmask. -/
structure SigApi where
  sigemptyset_ok : Bool
  sigaddset_ok : Int → Bool
  sigmask_ok : Bool

/-- Embedding of the free function block_signals (signal_handler.cpp lines
95-127).  The C++ function returns void, embedded as the Unit component of
the result; the second component is the resulting thread signal mask,
starting from the given current mask.  If sigemptyset fails the function
returns early; each sigaddset failure merely skips that signal (the loop
continues); if pthread_sigmask fails the mask is unchanged, otherwise the
collected set is added to the mask.  Failures are at most printed when
DEBUG_SIGNAL_HANDLER is defined; nothing is returned or thrown. -/
def block_signals (api : SigApi) (mask : List Int) : Unit × List Int :=
  if !api.sigemptyset_ok then ((), mask)
  else
    let blockset := signal_map.foldl
      (fun acc e => if api.sigaddset_ok e.1 then acc ++ [e.1] else acc) []
    if api.sigmask_ok then
      ((), mask ++ blockset.filter (fun x => !mask.contains x))
    else ((), mask)

/-- Concrete STDIN terminal settings used by witnesses: ECHOCTL set, some
arbitrary other bits. -/
def termA : Termios := { echoctl := true, rest := 7 }

/-- Concrete indeterminate value standing for the uninitialized
original_termios member at construction time. -/
def termJunk : Termios := { echoctl := false, rest := 0 }

/-- A freshly constructed, never started SignalHandler sitting in a world
whose STDIN terminal is termA and whose owning thread starts from the
empty signal mask of a normally started process. -/
def freshHandler : SHState := mkSignalHandler termA termJunk []

/-- The state of the fresh handler after a successful start (terminal
snapshot and sigemptyset both succeed).  On this input start evaluates to
a normal returned outcome, so the terminated fallback branch of the match
is never taken. -/
def startedHandler : SHState :=
  match start true true freshHandler with
  | StartOutcome.returned s => s
  | StartOutcome.terminated => freshHandler

/-- Oracle under which every signal-mask API call succeeds. -/
def apiAllOk : SigApi :=
  { sigemptyset_ok := true, sigaddset_ok := fun _ => true, sigmask_ok := true }

/-- Oracle under which sigaddset fails for SIGSEGV and every other call
succeeds: block_signals then blocks all registry signals except SIGSEGV,
a partial failure. -/
def apiMissingSegv : SigApi :=
  { sigemptyset_ok := true
    sigaddset_ok := fun i => !(i == SIGSEGV)
    sigmask_ok := true }

/-- Helper: looking up a key that is not among the keys of an association
list yields none. -/
theorem lookup_eq_none_of_not_mem_keys {α β : Type} [BEq α] [LawfulBEq α]
    (l : List (α × β)) (k : α) (h : k ∉ l.map Prod.fst) :
    l.lookup k = none := by
  induction l with
  | nil => rfl
  | cons e t ih =>
    obtain ⟨k1, v1⟩ := e
    simp only [List.map_cons, List.mem_cons] at h
    push_neg at h
    simp [List.lookup, beq_false_of_ne h.1, ih h.2]

/-- C1: the claim states that the wake signal SIGUSR1 is a member of
signal_map, marked non-critical there, and filtered from the user
callback.  In the code the SIGUSR1 entry of signal_map is commented out
(signal_handler.cpp line 69), so SIGUSR1 is not a key of the map; only
the filtering holds (line 445 discards SIGUSR1 before the callback).
This theorem evaluates the code at the failing input SIGUSR1: the lookup
returns none, so sigwaitinfo never waits on SIGUSR1 and the pthread_kill
in stop cannot wake the worker, contradicting the doc comments on
signal_map (line 55) and stop (line 306) which describe SIGUSR1 as mapped
and as interrupting the blocked sigwait. -/
theorem C1_wake_signal_absent_from_map :
    signal_map.lookup SIGUSR1 = none ∧
    SIGUSR1 ∉ signal_map.map Prod.fst ∧
    runIteration false true SIGUSR1 = LoopAction.continueLoop ∧
    runIteration false false SIGUSR1 = LoopAction.continueLoop := by
  decide

/-- C2: in the wait loop, for a delivered signal that is in the registry,
with no callback registered: if the critical flag of the signal is true
the process terminates immediately via std::exit, and if it is false the
loop returns to waiting with no other state change (the branch merely
continues the loop). -/
theorem C2_no_callback_policy (s : Int) (p : String × Bool)
    (h : (s, p) ∈ signal_map) :
    (p.2 = true → runIteration false false s = LoopAction.exitProcess) ∧
    (p.2 = false → runIteration false false s = LoopAction.continueLoop) := by
  fin_cases h <;> exact ⟨fun hc => by first | rfl | exact absurd hc (by decide),
    fun hc => by first | rfl | exact absurd hc (by decide)⟩

/-- Witness for C2 at the critical signal SIGSEGV and the non-critical
signal SIGINT. -/
theorem C2_no_callback_policy_witness :
    runIteration false false SIGSEGV = LoopAction.exitProcess ∧
    runIteration false false SIGINT = LoopAction.continueLoop :=
  ⟨(C2_no_callback_policy SIGSEGV ("SIGSEGV", true) (by decide)).1 rfl,
   (C2_no_callback_policy SIGINT ("SIGINT", false) (by decide)).2 rfl⟩

/-- C3: for every signal s in signal_map with critical flag c, a loop pass
with a registered callback and no stop requested invokes the callback
exactly once, with arguments (s, c): the list of callback invocations of
the pass is exactly the one-element list [(s, c)]. -/
theorem C3_callback_invoked_once (s : Int) (p : String × Bool)
    (h : (s, p) ∈ signal_map) :
    callbackCalls (runIteration false true s) = [(s, p.2)] := by
  fin_cases h <;> rfl

/-- Witness for C3 at the non-critical signal SIGINT and the critical
signal SIGABRT. -/
theorem C3_callback_invoked_once_witness :
    callbackCalls (runIteration false true SIGINT) = [(SIGINT, false)] ∧
    callbackCalls (runIteration false true SIGABRT) = [(SIGABRT, true)] :=
  ⟨C3_callback_invoked_once SIGINT ("SIGINT", false) (by decide),
   C3_callback_invoked_once SIGABRT ("SIGABRT", true) (by decide)⟩

/-- C6: for every key s of signal_map, signalToString s is the registered
display name, which is non-empty (and, signalToString being a pure
function of s, the same string on every call); for every s that is not a
key, signalToString s is exactly the string UNKNOWN. -/
theorem C6_signalToString_spec (s : Int) :
    (∀ p, (s, p) ∈ signal_map → signalToString s = p.1 ∧ p.1 ≠ "") ∧
    (s ∉ signal_map.map Prod.fst → signalToString s = "UNKNOWN") := by
  constructor
  · intro p h
    fin_cases h <;> exact ⟨rfl, by decide⟩
  · intro h
    simp [signalToString, lookup_eq_none_of_not_mem_keys signal_map s h]

/-- Witness for C6 at the mapped signal SIGINT and the unmapped signal
number 99. -/
theorem C6_signalToString_spec_witness :
    (signalToString SIGINT = "SIGINT" ∧ ("SIGINT" : String) ≠ "") ∧
    signalToString 99 = "UNKNOWN" :=
  ⟨(C6_signalToString_spec SIGINT).1 ("SIGINT", false) (by decide),
   (C6_signalToString_spec 99).2 (by decide)⟩

/-- C4: the claim states that the first stop call on a started dispatcher
returns Success and joins the worker, and a second call returns a
distinct AlreadyStopped status.  In the code the first effective stop
never gets that far: line 329 delivers SIGUSR1 to the worker thread, and
SIGUSR1 is absent from every mask the program builds (its signal_map
entry is commented out at line 69) and has no installed handler, so the
delivery is an unblocked default-terminate signal that kills the process
before the join at line 334 and before any return.  This theorem
evaluates the code at the failing input: stop on the started fresh
handler ends in processKilled with the wake signal still unblocked and
the join never performed, and never reaches a returned outcome. -/
theorem C4_first_stop_kills_process :
    stop startedHandler =
      StopOutcome.processKilled SIGUSR1
        { startedHandler with stop_requested := true } ∧
    SIGUSR1 ∉ startedHandler.blocked ∧
    ({ startedHandler with stop_requested := true } : SHState).join_count
      = 0 := by
  decide

/-- C5: the claim states that after a start whose terminal snapshot
succeeded, a stop restores the terminal settings that held before the
start.  In the code the restoring tcsetattr at line 340 is unreachable
after a real start: stop first delivers the unblocked SIGUSR1 (line 329),
which terminates the process (and had the environment blocked SIGUSR1,
the join at line 334 would hang forever, since the sigwaitinfo set also
lacks SIGUSR1), so the terminal keeps the ECHOCTL bit cleared.  This
theorem evaluates the code at the failing input: the snapshot did
succeed and start cleared ECHOCTL on the terminal termA, yet stop ends
in processKilled with the terminal still modified, different from the
pre-start settings. -/
theorem C5_terminal_not_restored :
    startedHandler.termios_saved = true ∧
    startedHandler.original_termios = termA ∧
    startedHandler.terminal = { termA with echoctl := false } ∧
    stop startedHandler =
      StopOutcome.processKilled SIGUSR1
        { startedHandler with stop_requested := true } ∧
    ({ startedHandler with stop_requested := true } : SHState).terminal
      ≠ termA := by
  decide

/-- C7 counterexample: block_signals returns void, so its returned value
on a run in which sigaddset failed for SIGSEGV (a partial failure: every
registry signal except SIGSEGV ends up blocked) is identical to its
returned value on a fully successful run, even though the resulting
thread masks differ.  The caller therefore cannot detect the partial
failure from the call. -/
theorem C7_partial_failure_unobservable :
    (block_signals apiAllOk []).1 = (block_signals apiMissingSegv []).1 ∧
    (block_signals apiAllOk []).2 ≠ (block_signals apiMissingSegv []).2 :=
  ⟨rfl, by decide⟩

/-- C7 amended: block_signals never throws and returns no value at all
(its void return is the Unit value on every oracle and every starting
mask, so no status reaches the caller); under a partial sigaddset failure
it silently blocks only the signals whose sigaddset succeeded, here all
registry signals except SIGSEGV. -/
theorem C7_block_signals_returns_no_status (api : SigApi)
    (mask : List Int) :
    (block_signals api mask).1 = () ∧
    (block_signals apiMissingSegv []).2 =
      [SIGINT, SIGTERM, SIGQUIT, SIGHUP, SIGBUS, SIGFPE, SIGILL, SIGABRT] :=
  ⟨rfl, by decide⟩

/-- C8 counterexample: the first start on the fresh handler returns
normally (void, carrying no status value of any kind), and the second
start on the resulting running instance does not return at all: line 219
move-assigns into the still-joinable worker_thread, which calls
std::terminate.  So the second call neither returns an AlreadyStarted or
AlreadyStopped status (no such values exist in the class; start is void)
nor starts another worker: it aborts the process. -/
theorem C8_second_start_aborts :
    start true true freshHandler = StartOutcome.returned startedHandler ∧
    start true true startedHandler = StartOutcome.terminated := by
  decide

/-- C8 amended: start checks no lifecycle state and returns no status;
whenever the worker thread is still joinable (as after any successful
start) and the sigemptyset call succeeds, a further start call reaches
the move assignment at line 219 and aborts the process via
std::terminate, whatever the terminal snapshot oracle says.  A start
after a stop cannot arise, because the first effective stop itself
terminates the process. -/
theorem C8_second_start_terminates (b : Bool) (s : SHState)
    (h : s.worker_joinable = true) :
    start b true s = StartOutcome.terminated := by
  cases b <;> simp [start, h]

/-- Witness for C8 amended at a concrete state whose worker thread is
joinable. -/
theorem C8_second_start_terminates_witness :
    start true true { freshHandler with worker_joinable := true } =
      StartOutcome.terminated :=
  C8_second_start_terminates true
    { freshHandler with worker_joinable := true } rfl

/-- C9: calling stop on a dispatcher whose running flag is false (in
particular one that was never started) returns false, performs no join
(hence cannot block), and returns with every field of the state
unchanged. -/
theorem C9_stop_never_started (s : SHState) (h : s.running = false) :
    stop s = StopOutcome.returned false s := by
  simp [stop, h]

/-- Witness for C9 at the concrete never-started fresh handler. -/
theorem C9_stop_never_started_witness :
    stop freshHandler = StopOutcome.returned false freshHandler :=
  C9_stop_never_started freshHandler rfl

/-- C10: setPriority returns false whenever the dispatcher is not running
or the worker thread is not joinable, whatever the requested policy and
priority and whether or not pthread_setschedparam would succeed, and in
that case applies no scheduling change and leaves the state unchanged. -/
theorem C10_setPriority_requires_running (ok : Bool) (pol pri : Int)
    (s : SHState) (h : s.running = false ∨ s.worker_joinable = false) :
    setPriority ok pol pri s = (false, s) := by
  rcases h with h | h <;> simp [setPriority, h]

/-- Witness for C10 at the concrete fresh handler (not running) and at a
concrete state that is running but whose worker thread is not joinable,
exercising both disjuncts of the hypothesis. -/
theorem C10_setPriority_requires_running_witness :
    setPriority true 1 10 freshHandler = (false, freshHandler) ∧
    setPriority true 1 10 { freshHandler with running := true } =
      (false, { freshHandler with running := true }) :=
  ⟨C10_setPriority_requires_running true 1 10 freshHandler (Or.inl rfl),
   C10_setPriority_requires_running true 1 10
     { freshHandler with running := true } (Or.inr rfl)⟩

end SigHandler
